import Mathlib

/-!
Shallow embedding of the htmlctrl package (gohtmlctrl repository).

The authoritative source is src/unnamed/part_000 (htmlctrl.go, final revision)
together with src/htmlctrl/valid.go.  Line numbers in the doc comments below
refer to part_000.

Modelling conventions:
  * Go float64 values are modelled as rationals.  The float64 min/max/step
    parameters use the sentinel math.NaN() to mean "unset"; they are modelled
    as Option Rat with none standing for NaN.  Non-finite numeric inputs are
    outside the model.
  * A Go panic is modelled as a distinguished outcome (Res.panic, or none for
    the change handlers that return Option).
  * The value string delivered by the DOM to a numeric change handler is
    modelled by the outcome of parsing it (NumText): intText n when
    strconv.Atoi succeeds with n, floatText q when Atoi fails but
    strconv.ParseFloat succeeds with q, badText when neither parses.
  * The jquery widget is modelled by the data the handlers interact with:
    the displayed state (checked / value / selectedIndex) and the
    "prev" data slot.  Purely presentational effects (CSS classes, title/id
    attributes, buttons, labels) are not recorded.
-/

namespace Htmlctrl

/-- Validator (valid.go): a predicate over the proposed new value.  The Go
interface receives an interface{}; here it receives the tagged Go value. -/
inductive GoVal where
  | boolV (b : Bool)
  | intV (n : Int)
  | floatV (q : Rat)
  | stringV (s : String)
  | structV (fields : List GoVal)
  | sliceV (elems : List GoVal)
  | ptrV (v : Option GoVal)
  | mapV
  | funcV

/-- Validator is used to validate changes (valid.go line 12).  nil validators
are represented by Option.none at use sites. -/
def Validator : Type := GoVal → Bool

/-- The process-wide validator registry (valid.go line 3): name to validator,
with absent entries returning none, like a Go map lookup. -/
def Registry : Type := String → Option Validator

/-- RegisterValidator (valid.go line 6): store fn under name. -/
def RegisterValidator (reg : Registry) (name : String) (fn : Validator) : Registry :=
  fun n => if n = name then some fn else reg n

/-- valid != nil && !valid.Validate(c) — the rejection test of the Bool,
String and Choice handlers (lines 197, 305, 340). -/
def rejects (valid : Option Validator) (c : GoVal) : Bool :=
  match valid with
  | none => false
  | some v => !(v c)

/-- valid == nil || valid.Validate(c) — the isValid test of the Int and
Float64 handlers (lines 242, 281). -/
def accepts (valid : Option Validator) (c : GoVal) : Bool :=
  match valid with
  | none => true
  | some v => v c

/-- Go conversion int(f) of a float64 to int: truncation toward zero. -/
def goTrunc (q : Rat) : Int := if 0 ≤ q then ⌊q⌋ else ⌈q⌉

/-- Parse outcome of the value string a numeric change handler reads from the
DOM: intText n when strconv.Atoi succeeds, floatText q when Atoi fails and
strconv.ParseFloat succeeds, badText when both fail. -/
inductive NumText where
  | intText (n : Int)
  | floatText (q : Rat)
  | badText
deriving DecidableEq

/-- Lines 230-240 of the Int handler: newI := Atoi(val); on failure
f := ParseFloat(val) and newI = int(f) (truncation); none when both fail
(the handler panics there, line 235). -/
def NumText.toIntCandidate : NumText → Option Int
  | .intText n => some n
  | .floatText q => some (goTrunc q)
  | .badText => none

/-- Lines 274-278 of the Float64 handler: newF := ParseFloat(val); none when
parsing fails (the handler panics there, line 277). -/
def NumText.toFloatCandidate : NumText → Option Rat
  | .intText n => some (n : Rat)
  | .floatText q => some q
  | .badText => none

/-- State of one scalar binder after a change-handler run: the bound Go value
(*b / *i / *f / *s), the widget's "prev" data and the widget's displayed
state. -/
structure ScalarState (α : Type) where
  bound : α
  prev : α
  disp : α
deriving DecidableEq

/-- Change handler installed by Bool (lines 190-203).  The checked property
always parses as a bool, so the panic branch (line 195) is unreachable and the
event is modelled as the parsed bool.  prev is the widget's "prev" data at
entry; ev is the post-edit checked state. -/
def boolChange (valid : Option Validator) (prev : Bool) (ev : Bool) : ScalarState Bool :=
  let bNew := ev
  let (bNew, disp) :=
    if rejects valid (.boolV bNew) then (prev, prev) else (bNew, ev)
  { bound := bNew, prev := bNew, disp := disp }

/-- Change handler installed by Int (lines 229-251).  Returns none when the
value string parses neither as int nor as float (panic, line 235).  The final
displayed value equals the final committed value: a fractional entry is
rewritten by SetVal(newI) at line 239 and a rejected edit by SetVal at
line 247. -/
def intChange (mn mx : Option Rat) (valid : Option Validator) (prev : Int) (ev : NumText) :
    Option (ScalarState Int) :=
  match ev.toIntCandidate with
  | none => none
  | some newI =>
    let isValid : Bool := accepts valid (.intV newI)
    let isToLow : Bool := match mn with | none => false | some m => decide (newI < goTrunc m)
    let isToHigh : Bool := match mx with | none => false | some m => decide (goTrunc m < newI)
    let newI := if !isValid || isToLow || isToHigh then prev else newI
    some { bound := newI, prev := newI, disp := newI }

/-- Change handler installed by Float64 (lines 273-290).  Returns none when
ParseFloat fails (panic, line 277).  SetVal(newF) at line 279 and the rollback
SetVal at line 286 make the displayed value equal the committed value. -/
def floatChange (mn mx : Option Rat) (valid : Option Validator) (prev : Rat) (ev : NumText) :
    Option (ScalarState Rat) :=
  match ev.toFloatCandidate with
  | none => none
  | some newF =>
    let isValid : Bool := accepts valid (.floatV newF)
    let isToLow : Bool := match mn with | none => false | some m => decide (newF < m)
    let isToHigh : Bool := match mx with | none => false | some m => decide (m < newF)
    let newF := if !isValid || isToLow || isToHigh then prev else newF
    some { bound := newF, prev := newF, disp := newF }

/-- Change handler installed by String (lines 303-311). -/
def stringChange (valid : Option Validator) (prev : String) (ev : String) : ScalarState String :=
  let newS := ev
  let (newS, disp) :=
    if rejects valid (.stringV newS) then (prev, prev) else (newS, ev)
  { bound := newS, prev := newS, disp := disp }

/-- State of the Choice binder after a change-handler run: the bound string,
the "prev" data (an index) and the displayed selectedIndex. -/
structure ChoiceState where
  bound : String
  prev : Int
  selIdx : Int
deriving DecidableEq

/-- Change handler installed by Choice (lines 337-346).  evS and evIdx are the
event target's value and selectedIndex.  Returns none when the final index is
out of range of choices (the indexing at line 344 panics there). -/
def choiceChange (choices : List String) (valid : Option Validator) (prev : Int)
    (evS : String) (evIdx : Int) : Option ChoiceState :=
  let newS := evS
  let newIndex := evIdx
  let (newIndex, sel) :=
    if rejects valid (.stringV newS) then (prev, prev) else (newIndex, newIndex)
  if h : 0 ≤ newIndex ∧ newIndex.toNat < choices.length then
    some { bound := choices.get ⟨newIndex.toNat, h.2⟩, prev := newIndex, selIdx := sel }
  else
    none

/-!  Bind-time machinery: widget construction and the convert dispatcher. -/

/-- Outcome of a reflect.StructTag numeric entry (min/max/step) under
strconv.ParseFloat (lines 68-88): unset when the tag is absent/empty (the
sentinel math.NaN() is used), bad when it is non-empty but not a number
(a bind-time error), num q when it parses. -/
inductive NumTag where
  | unset
  | bad
  | num (q : Rat)
deriving DecidableEq

/-- min as an Option: none is a parse error, some none is NaN (unset),
some (some q) is a concrete bound. -/
def NumTag.toBound : NumTag → Option (Option Rat)
  | .unset => some none
  | .bad => none
  | .num q => some (some q)

/-- One struct field as reflect exposes it: its name, whether it is exported
(PkgPath == "", line 58), and its tag entries (lines 62-90):
title, id, class, choice, valid as raw strings; min, max, step by their parse
outcome. -/
structure FieldTags where
  name : String
  exported : Bool
  title : String
  id : String
  cls : String
  choice : String
  valid : String
  min : NumTag
  max : NumTag
  step : NumTag
deriving DecidableEq

/-- The Go types the dispatcher distinguishes (reflect.Kind, lines 357-374),
with enough structure to recurse: struct fields carry their tags, slices and
pointers their element type.  mapT and funcT stand for the kinds that match
no case of the switch. -/
inductive GoType where
  | boolT
  | intT
  | float64T
  | stringT
  | structT (fields : List (FieldTags × GoType))
  | sliceT (elem : GoType)
  | ptrT (elem : GoType)
  | mapT
  | funcT

/-- reflect.Kind == reflect.Ptr. -/
def GoType.isPtr : GoType → Bool
  | .ptrT _ => true
  | _ => false

/-- The zero value of a type, as produced by reflect.New(T).Elem():
false, 0, "", a struct of zero fields, a nil slice (modelled empty),
a nil pointer. -/
def GoType.zero : GoType → GoVal
  | .boolT => .boolV false
  | .intT => .intV 0
  | .float64T => .floatV 0
  | .stringT => .stringV ""
  | .structT fields => .structV (fields.attach.map (fun ft => ft.1.2.zero))
  | .sliceT _ => .sliceV []
  | .ptrT _ => .ptrV none
  | .mapT => .mapV
  | .funcT => .funcV
decreasing_by
  rcases ft with ⟨⟨tags, ty⟩, hmem⟩
  have h := List.sizeOf_lt_of_mem hmem
  simp at h ⊢
  omega

/-- The widget tree a binder returns, reduced to the state the package itself
reads back: displayed state and the "prev" data of each scalar control, the
choice list of a select control, and the rows of a struct or slice container.
Buttons, labels and html attributes are presentational and not recorded. -/
inductive Widget where
  | boolW (checked : Bool) (prev : Bool)
  | intW (value : Int) (prev : Int)
  | floatW (value : Rat) (prev : Rat)
  | stringW (value : String) (prev : String)
  | choiceW (choices : List String) (selIdx : Int) (prev : Int)
  | structW (fields : List Widget)
  | sliceW (rows : List Widget)

/-- Bind-time errors, one constructor per fmt.Errorf site reached during
binding. -/
inductive GoError where
  | structPtrNotPtr
  | structPtrNotStruct
  | slicePtrNotPtr
  | slicePtrNotSlice
  | unregisteredValidator (name : String)
  | badMinTag
  | badMaxTag
  | badStepTag
  | fieldErr (field : String) (e : GoError)
  | sliceElemErr (i : Nat) (e : GoError)
  | invalidDefault (s : String)
  | unsupportedType

/-- Result of a binding call: a value, a returned error, or a Go panic. -/
inductive Res (α : Type) where
  | ok (a : α)
  | err (e : GoError)
  | panic

def Res.map (f : α → β) : Res α → Res β
  | .ok a => .ok (f a)
  | .err e => .err e
  | .panic => .panic

/-- Bool (lines 184-205): builds a checkbox showing *b, with "prev" data *b.
Never returns an error.  The returned pair is the widget and the (unchanged)
bound value. -/
def BoolBind (b : Bool) (title id cls : String) (valid : Option Validator) :
    Res (Widget × GoVal) :=
  .ok (.boolW b b, .boolV b)

/-- Int (lines 214-253): builds a number input showing *i, with "prev" data
*i.  min/max/step only become html attributes (not recorded).  Never returns
an error. -/
def IntBind (i : Int) (title id cls : String) (mn mx st : Option Rat)
    (valid : Option Validator) : Res (Widget × GoVal) :=
  .ok (.intW i i, .intV i)

/-- Float64 (lines 258-292): builds a number input showing *f, with "prev"
data *f.  Never returns an error. -/
def Float64 (f : Rat) (title id cls : String) (mn mx st : Option Rat)
    (valid : Option Validator) : Res (Widget × GoVal) :=
  .ok (.floatW f f, .floatV f)

/-- String (lines 297-313): builds a text input showing *s, with "prev" data
*s.  Never returns an error. -/
def StringBind (s : String) (title id cls : String) (valid : Option Validator) :
    Res (Widget × GoVal) :=
  .ok (.stringW s s, .stringV s)

/-- The loop of lines 325-331: index := -1; for i, c := range choices, if
c == s then index = i.  The result is the index of the last occurrence of s,
or -1 when s does not occur. -/
def lastMatchAux (s : String) : List String → Int → Int → Int
  | [], idx, _ => idx
  | c :: rest, idx, i => lastMatchAux s rest (if c = s then i else idx) (i + 1)

def lastMatchIndex (choices : List String) (s : String) : Int :=
  lastMatchAux s choices (-1) 0

/-- Choice (lines 319-348).  If *s is empty it is set to choices[0] — an
index-out-of-range panic when choices is empty (line 323).  Then the last
index holding *s becomes the selection; -1 (no occurrence) is the
InvalidDefault error (line 333).  Returns the widget together with the
possibly updated bound string. -/
def Choice (s : String) (choices : List String) (title id cls : String)
    (valid : Option Validator) : Res (Widget × String) :=
  if s = "" then
    match choices with
    | [] => .panic
    | c0 :: _ =>
      let index := lastMatchIndex choices c0
      if index = -1 then .err (.invalidDefault c0)
      else .ok (.choiceW choices index index, c0)
  else
    let index := lastMatchIndex choices s
    if index = -1 then .err (.invalidDefault s)
    else .ok (.choiceW choices index index, s)

/-- Click handler of a slice row's delete button (lines 128-140): splice
element i out via begin = s[0:i], end = s[i+1:len], append(begin, end...).
The handler's i is the li's DOM index, always < length. -/
def sliceRemove (elems : List GoVal) (i : Nat) : List GoVal :=
  elems.take i ++ elems.drop (i + 1)

/-- Click handler of a slice's add button (lines 154-168): append
reflect.New(elemType) — a fresh non-nil pointer to a zero value when the
element type is a pointer, the zero value itself otherwise. -/
def sliceAdd (elemType : GoType) (elems : List GoVal) : List GoVal :=
  match elemType with
  | .ptrT inner => elems ++ [.ptrV (some inner.zero)]
  | t => elems ++ [t.zero]

mutual

/-- convert (lines 350-375): compute the effective kind, unwrapping one level
of pointer indirection, then dispatch.  For a pointer, intf is the pointer
itself and the updated pointee is re-wrapped; a pointer whose value does not
have pointer shape cannot arise from Go's type system.  For a non-pointer,
intf is val.Addr() and the value is always present. -/
def convert (reg : Registry) (t : GoType) (v : GoVal)
    (title id cls choiceTag : String) (mn mx st : Option Rat)
    (valid : Option Validator) : Res (Widget × GoVal) :=
  match t, v with
  | .ptrT t', .ptrV inner? =>
    (convertKind reg t' inner? title id cls choiceTag mn mx st valid).map
      (fun p => (p.1, .ptrV p.2))
  | .ptrT _, _ => .panic
  | t, v =>
    match convertKind reg t (some v) title id cls choiceTag mn mx st valid with
    | .ok (w, some v') => .ok (w, v')
    | .ok (_, none) => .panic
    | .err e => .err e
    | .panic => .panic
termination_by (sizeOf t, 1, 0)

/-- The switch of lines 357-374 on the effective kind.  v? is the value
behind intf: none for a nil pointer, whose dereference inside a binder is a
run-time panic (every scalar binder reads its argument immediately: lines
188, 227, 271, 301, 322; Struct reads structValue.Field, Slice reads
sliceValue.Len).  The kinds with no case — including a second level of
pointer — fall through to the unsupported-type error (line 374), reached
without dereferencing.  Returns the widget and the updated pointee (none kept
for a nil pointer whose binder never dereferences it). -/
def convertKind (reg : Registry) (t : GoType) (v? : Option GoVal)
    (title id cls choiceTag : String) (mn mx st : Option Rat)
    (valid : Option Validator) : Res (Widget × Option GoVal) :=
  match t with
  | .structT fields =>
    -- Struct(intf, title, id, class), line 359; its pointer-shape rechecks
    -- (lines 44-50) always pass on this call path.  min/max/step/valid are
    -- not forwarded.
    match v? with
    | some (.structV vs) =>
      (structFields reg fields (some vs)).map
        (fun p => (.structW p.1, some (.structV p.2)))
    | some _ => .panic
    | none =>
      (structFields reg fields none).map (fun p => (.structW p.1, none))
  | .sliceT et =>
    -- Slice(intf, title, id, class, min, max, step, valid), line 361; its
    -- shape rechecks (lines 110-116) always pass on this call path.
    match v? with
    | some (.sliceV es) =>
      (sliceElems reg et es 0 mn mx st valid).map
        (fun p => (.sliceW p.1, some (.sliceV p.2)))
    | some _ => .panic
    | none => .panic
  | .boolT =>
    match v? with
    | some (.boolV b) => (BoolBind b title id cls valid).map (fun p => (p.1, some p.2))
    | _ => .panic
  | .intT =>
    match v? with
    | some (.intV n) =>
      (IntBind n title id cls mn mx st valid).map (fun p => (p.1, some p.2))
    | _ => .panic
  | .float64T =>
    match v? with
    | some (.floatV q) =>
      (Float64 q title id cls mn mx st valid).map (fun p => (p.1, some p.2))
    | _ => .panic
  | .stringT =>
    match v? with
    | some (.stringV s) =>
      if choiceTag != "" then
        -- Choice(intf, strings.Split(choices, ","), ...), line 370
        (Choice s (choiceTag.splitOn ",") title id cls valid).map
          (fun p => (p.1, some (.stringV p.2)))
      else
        (StringBind s title id cls valid).map (fun p => (p.1, some p.2))
    | _ => .panic
  | .ptrT _ => .err .unsupportedType
  | .mapT => .err .unsupportedType
  | .funcT => .err .unsupportedType
termination_by (sizeOf t, 0, 0)

/-- The field loop of Struct (lines 55-99).  vs? is none when the struct
pointer is nil: unexported fields are skipped before structValue.Field(i) is
reached (lines 57-60), any exported field then panics at Field(i).  Per
exported field: validator-tag lookup (lines 63-67), min/max/step tag parsing
(lines 68-88), then convert with the field's tags (line 90); an error aborts
with the field's name wrapped in (line 93).  Returns the field widgets and
the updated field values. -/
def structFields (reg : Registry) (fields : List (FieldTags × GoType))
    (vs? : Option (List GoVal)) : Res (List Widget × List GoVal) :=
  match fields with
  | [] => .ok ([], [])
  | (tags, t) :: rest =>
    if tags.exported = false then
      match vs? with
      | some (v :: restV) =>
        (structFields reg rest (some restV)).map (fun p => (p.1, v :: p.2))
      | some [] => structFields reg rest (some [])
      | none => structFields reg rest none
    else
      match vs? with
      | none => .panic
      | some [] => .panic
      | some (v :: restV) =>
        if tags.valid != "" && (reg tags.valid).isNone then
          .err (.unregisteredValidator tags.valid)
        else
          match tags.min.toBound with
          | none => .err .badMinTag
          | some mn =>
            match tags.max.toBound with
            | none => .err .badMaxTag
            | some mx =>
              match tags.step.toBound with
              | none => .err .badStepTag
              | some st =>
                match convert reg t v tags.title tags.id tags.cls tags.choice
                    mn mx st (reg tags.valid) with
                | .err e => .err (.fieldErr tags.name e)
                | .panic => .panic
                | .ok (w, v') =>
                  (structFields reg rest (some restV)).map
                    (fun p => (w :: p.1, v' :: p.2))
termination_by (sizeOf fields, 0, 0)

/-- The populate loop of Slice (lines 145-152): convert each element with
empty title/id/class/choices and the slice-level bounds and validator; the
first failure aborts with the element index wrapped in (line 149). -/
def sliceElems (reg : Registry) (et : GoType) (elems : List GoVal) (i : Nat)
    (mn mx st : Option Rat) (valid : Option Validator) :
    Res (List Widget × List GoVal) :=
  match elems with
  | [] => .ok ([], [])
  | e :: rest =>
    match convert reg et e "" "" "" "" mn mx st valid with
    | .err err => .err (.sliceElemErr i err)
    | .panic => .panic
    | .ok (w, e') =>
      (sliceElems reg et rest (i + 1) mn mx st valid).map
        (fun p => (w :: p.1, e' :: p.2))
termination_by (sizeOf et, 2, elems.length)

end

/-- Struct (lines 43-101): requires a pointer to a struct (lines 44-50),
then runs the field loop.  The updated bound value re-wraps the updated
fields; a nil pointer stays nil. -/
def Struct (reg : Registry) (t : GoType) (v : GoVal) (title id cls : String) :
    Res (Widget × GoVal) :=
  match t with
  | .ptrT (.structT fields) =>
    match v with
    | .ptrV (some (.structV vs)) =>
      (structFields reg fields (some vs)).map
        (fun p => (.structW p.1, .ptrV (some (.structV p.2))))
    | .ptrV (some _) => .panic
    | .ptrV none =>
      (structFields reg fields none).map (fun p => (.structW p.1, .ptrV none))
    | _ => .panic
  | .ptrT _ => .err .structPtrNotStruct
  | _ => .err .structPtrNotPtr

/-- Slice (lines 109-179): requires a pointer to a slice (lines 110-116),
then runs the populate loop.  A nil slice pointer panics at
sliceValue.Len(). -/
def Slice (reg : Registry) (t : GoType) (v : GoVal) (title id cls : String)
    (mn mx st : Option Rat) (valid : Option Validator) : Res (Widget × GoVal) :=
  match t with
  | .ptrT (.sliceT et) =>
    match v with
    | .ptrV (some (.sliceV es)) =>
      (sliceElems reg et es 0 mn mx st valid).map
        (fun p => (.sliceW p.1, .ptrV (some (.sliceV p.2))))
    | .ptrV _ => .panic
    | _ => .panic
  | .ptrT _ => .err .slicePtrNotSlice
  | _ => .err .slicePtrNotPtr

/-- A validator that rejects everything, used to exercise the rollback
branches at concrete inputs. -/
def rejectAll : Validator := fun _ => false

/-- The empty registry: no validator registered under any name. -/
def regNone : Registry := fun _ => none

/-- Tags of an exported field with no tag entries set. -/
def plainTags (n : String) : FieldTags :=
  { name := n, exported := true, title := "", id := "", cls := "", choice := "",
    valid := "", min := .unset, max := .unset, step := .unset }

/-- Tags of an exported field whose valid tag names the unregistered
validator "nope". -/
def badValidTags : FieldTags := { plainTags "B" with valid := "nope" }

/-!  Helper facts. -/

lemma goTrunc_37_10 : goTrunc (37 / 10) = 3 := by
  rw [goTrunc, if_pos (by norm_num), Int.floor_eq_iff]
  norm_num

/-!  C1 -/

/-- C1: for every scalar binder (Bool, Int, Float64, String, Choice), if a
validator is installed and rejects the proposed edit's candidate value, the
change handler leaves the bound value at the value it had before the edit and
restores the widget's displayed state to the previous-accepted value.  The
value before the edit is the handler's "prev" data: the two coincide after
binding and after every handler run (claim C9), so each part is stated with
prev standing for both; for Choice the previous-accepted index p must point
at the bound string s0. -/
theorem c1_reject_rolls_back (v : Validator) :
    (∀ (b0 ev : Bool), v (.boolV ev) = false →
      boolChange (some v) b0 ev = { bound := b0, prev := b0, disp := b0 })
  ∧ (∀ (mn mx : Option Rat) (i0 c : Int) (ev : NumText),
      ev.toIntCandidate = some c → v (.intV c) = false →
      intChange mn mx (some v) i0 ev = some { bound := i0, prev := i0, disp := i0 })
  ∧ (∀ (mn mx : Option Rat) (f0 q : Rat) (ev : NumText),
      ev.toFloatCandidate = some q → v (.floatV q) = false →
      floatChange mn mx (some v) f0 ev = some { bound := f0, prev := f0, disp := f0 })
  ∧ (∀ (s0 ev : String), v (.stringV ev) = false →
      stringChange (some v) s0 ev = { bound := s0, prev := s0, disp := s0 })
  ∧ (∀ (choices : List String) (p : Nat) (hp : p < choices.length)
        (s0 evS : String) (evIdx : Int),
      choices.get ⟨p, hp⟩ = s0 → v (.stringV evS) = false →
      choiceChange choices (some v) (p : Int) evS evIdx
        = some { bound := s0, prev := (p : Int), selIdx := (p : Int) }) := by
  refine ⟨?_, ?_, ?_, ?_, ?_⟩
  · intro b0 ev hv
    simp [boolChange, rejects, hv]
  · intro mn mx i0 c ev hc hv
    simp [intChange, hc, accepts, hv]
  · intro mn mx f0 q ev hq hv
    simp [floatChange, hq, accepts, hv]
  · intro s0 ev hv
    simp [stringChange, rejects, hv]
  · intro choices p hp s0 evS evIdx hs hv
    have hcond : 0 ≤ (p : Int) ∧ ((p : Int)).toNat < choices.length := by
      constructor
      · exact Int.natCast_nonneg p
      · simpa using hp
    simp only [choiceChange, rejects, hv, Bool.not_false, if_true]
    rw [dif_pos hcond]
    simp only [Option.some.injEq]
    refine congrArg (fun b => ChoiceState.mk b (p : Int) (p : Int)) ?_
    rw [← hs]
    congr 1

/-- Witness for C1: each rollback branch exercised at a concrete input with
the all-rejecting validator. -/
theorem c1_reject_rolls_back_witness :
    rejectAll (.boolV false) = false
  ∧ boolChange (some rejectAll) true false = { bound := true, prev := true, disp := true }
  ∧ intChange none none (some rejectAll) 5 (.intText 7)
      = some { bound := 5, prev := 5, disp := 5 }
  ∧ floatChange none none (some rejectAll) 2 (.intText 7)
      = some { bound := 2, prev := 2, disp := 2 }
  ∧ stringChange (some rejectAll) "keep" "new"
      = { bound := "keep", prev := "keep", disp := "keep" }
  ∧ choiceChange ["def", "abc"] (some rejectAll) ((0 : Nat) : Int) "abc" 1
      = some { bound := "def", prev := ((0 : Nat) : Int), selIdx := ((0 : Nat) : Int) } := by
  refine ⟨rfl, ?_, ?_, ?_, ?_, ?_⟩
  · exact (c1_reject_rolls_back rejectAll).1 true false rfl
  · exact (c1_reject_rolls_back rejectAll).2.1 none none 5 7 (.intText 7) rfl rfl
  · exact (c1_reject_rolls_back rejectAll).2.2.1 none none 2 7 (.intText 7) rfl rfl
  · exact (c1_reject_rolls_back rejectAll).2.2.2.1 "keep" "new" rfl
  · exact (c1_reject_rolls_back rejectAll).2.2.2.2 ["def", "abc"] 0 (by decide)
      "def" "abc" 1 rfl rfl

/-!  C2 -/

/-- C2: for an Int binder with concrete (non-NaN) min and max, a candidate
below int(min) or above int(max) is rejected with the bound value unchanged
even with no validator installed, and an in-bounds candidate with no
validator is committed.  i0 is the previous-accepted value, equal to the
bound value before the edit. -/
theorem c2_int_bounds (m M : Rat) (i0 c : Int) (ev : NumText)
    (hc : ev.toIntCandidate = some c) :
    ((c < goTrunc m ∨ goTrunc M < c) →
      intChange (some m) (some M) none i0 ev
        = some { bound := i0, prev := i0, disp := i0 })
  ∧ (goTrunc m ≤ c → c ≤ goTrunc M →
      intChange (some m) (some M) none i0 ev
        = some { bound := c, prev := c, disp := c }) := by
  constructor
  · rintro (h | h) <;> simp [intChange, hc, accepts, h]
  · intro h1 h2
    have g1 : ¬(c < goTrunc m) := not_lt.mpr h1
    have g2 : ¬(goTrunc M < c) := not_lt.mpr h2
    simp [intChange, hc, accepts, g1, g2]

/-- Witness for C2, the spec's example: min=0, max=10, an edit to 15 is
rejected (value stays 5), an edit to 7 is committed. -/
theorem c2_int_bounds_witness :
    (NumText.intText 15).toIntCandidate = some 15
  ∧ intChange (some ((0 : Int) : Rat)) (some ((10 : Int) : Rat)) none 5 (.intText 15)
      = some { bound := 5, prev := 5, disp := 5 }
  ∧ intChange (some ((0 : Int) : Rat)) (some ((10 : Int) : Rat)) none 5 (.intText 7)
      = some { bound := 7, prev := 7, disp := 7 } := by
  have h0 : goTrunc ((0 : Int) : Rat) = 0 := by
    rw [goTrunc, if_pos (by norm_num)]; simp
  have h10 : goTrunc ((10 : Int) : Rat) = 10 := by
    rw [goTrunc, if_pos (by norm_num)]; simp
  refine ⟨rfl, ?_, ?_⟩
  · exact (c2_int_bounds _ _ 5 15 (.intText 15) rfl).1 (Or.inr (by rw [h10]; norm_num))
  · exact (c2_int_bounds _ _ 5 7 (.intText 7) rfl).2
      (by rw [h0]; norm_num) (by rw [h10]; norm_num)

/-!  C7 -/

/-- C7: an Int edit whose text parses as a fractional number (Atoi fails,
ParseFloat succeeds) is truncated to an integer before the validator and the
min/max checks run, and when the truncated candidate passes those checks it
is committed. -/
theorem c7_int_truncation (mn mx : Option Rat) (valid : Option Validator)
    (i0 : Int) (q : Rat)
    (hacc : accepts valid (.intV (goTrunc q)) = true)
    (hlo : ∀ m, mn = some m → ¬(goTrunc q < goTrunc m))
    (hhi : ∀ m, mx = some m → ¬(goTrunc m < goTrunc q)) :
    intChange mn mx valid i0 (.floatText q)
      = some { bound := goTrunc q, prev := goTrunc q, disp := goTrunc q } := by
  rcases mn with - | m
  · rcases mx with - | M
    · simp [intChange, NumText.toIntCandidate, hacc]
    · simp [intChange, NumText.toIntCandidate, hacc, hhi M rfl]
  · rcases mx with - | M
    · simp [intChange, NumText.toIntCandidate, hacc, hlo m rfl]
    · simp [intChange, NumText.toIntCandidate, hacc, hlo m rfl, hhi M rfl]

/-- Witness for C7, the spec's example: the text "3.7" (Atoi fails,
ParseFloat yields 37/10) stores 3. -/
theorem c7_int_truncation_witness :
    accepts none (.intV (goTrunc (37 / 10))) = true
  ∧ intChange none none none 0 (.floatText (37 / 10))
      = some { bound := 3, prev := 3, disp := 3 } := by
  refine ⟨rfl, ?_⟩
  have h := c7_int_truncation none none none 0 (37 / 10) rfl
    (by intro m hm; cases hm) (by intro m hm; cases hm)
  rw [h, goTrunc_37_10]

/-!  C9 -/

/-- C9: for the Bool, Int, Float64 and String binders, the widget's "prev"
data equals the bound value right after binding (both are set from *b at
lines 188-189, 227-228, 271-272, 301-302) and after every change-handler
run, accepted or rejected: the rejection branch writes the previous-accepted
value into the bound value rather than skipping the write, keeping the two
equal. -/
theorem c9_prev_tracks_bound :
    (∀ b title id cls valid,
      BoolBind b title id cls valid = .ok (.boolW b b, .boolV b))
  ∧ (∀ n title id cls mn mx st valid,
      IntBind n title id cls mn mx st valid = .ok (.intW n n, .intV n))
  ∧ (∀ q title id cls mn mx st valid,
      Float64 q title id cls mn mx st valid = .ok (.floatW q q, .floatV q))
  ∧ (∀ s title id cls valid,
      StringBind s title id cls valid = .ok (.stringW s s, .stringV s))
  ∧ (∀ valid p ev, (boolChange valid p ev).prev = (boolChange valid p ev).bound)
  ∧ (∀ mn mx valid p ev st, intChange mn mx valid p ev = some st → st.prev = st.bound)
  ∧ (∀ mn mx valid p ev st, floatChange mn mx valid p ev = some st → st.prev = st.bound)
  ∧ (∀ valid p ev, (stringChange valid p ev).prev = (stringChange valid p ev).bound) := by
  refine ⟨fun _ _ _ _ _ => rfl, fun _ _ _ _ _ _ _ _ => rfl,
    fun _ _ _ _ _ _ _ _ => rfl, fun _ _ _ _ _ => rfl, ?_, ?_, ?_, ?_⟩
  · intro valid p ev
    by_cases h : rejects valid (.boolV ev) = true <;> simp [boolChange, h]
  · intro mn mx valid p ev st hst
    cases hev : ev.toIntCandidate with
    | none => rw [intChange, hev] at hst; cases hst
    | some c =>
      rw [intChange, hev] at hst
      cases hst
      rfl
  · intro mn mx valid p ev st hst
    cases hev : ev.toFloatCandidate with
    | none => rw [floatChange, hev] at hst; cases hst
    | some c =>
      rw [floatChange, hev] at hst
      cases hst
      rfl
  · intro valid p ev
    by_cases h : rejects valid (.stringV ev) = true <;> simp [stringChange, h]

/-!  Facts about the selection-index loop of Choice. -/

lemma lastMatchAux_not_mem {s : String} :
    ∀ {l : List String} (idx i : Int), s ∉ l → lastMatchAux s l idx i = idx := by
  intro l
  induction l with
  | nil => intro idx i _; rfl
  | cons c rest ih =>
    intro idx i h
    have h1 : ¬(c = s) := fun hc => h (by simp [hc])
    have h2 : s ∉ rest := fun hm => h (List.mem_cons_of_mem _ hm)
    rw [lastMatchAux, if_neg h1]
    exact ih _ _ h2

lemma lastMatchAux_nonneg {s : String} :
    ∀ {l : List String} {idx i : Int}, 0 ≤ i → (0 ≤ idx ∨ s ∈ l) →
      0 ≤ lastMatchAux s l idx i := by
  intro l
  induction l with
  | nil =>
    intro idx i _ h
    rcases h with h | h
    · simpa [lastMatchAux] using h
    · cases h
  | cons c rest ih =>
    intro idx i hi h
    rw [lastMatchAux]
    by_cases hc : c = s
    · rw [if_pos hc]
      exact ih (by omega) (Or.inl hi)
    · rw [if_neg hc]
      refine ih (by omega) ?_
      rcases h with h | h
      · exact Or.inl h
      · rcases List.mem_cons.mp h with h | h
        · exact absurd h.symm hc
        · exact Or.inr h

lemma lastMatchIndex_nonneg_of_mem {choices : List String} {s : String}
    (h : s ∈ choices) : 0 ≤ lastMatchIndex choices s :=
  lastMatchAux_nonneg (by norm_num) (Or.inr h)

lemma lastMatchIndex_not_mem {choices : List String} {s : String}
    (h : s ∉ choices) : lastMatchIndex choices s = -1 :=
  lastMatchAux_not_mem _ _ h

/-!  C5 -/

/-- C5 counterexample: with empty bound string and the non-empty choices
list ["a", "a"], Choice stores choices[0] = "a" but the selected index is 1
(the loop at lines 326-331 keeps the last matching index), not 0 as
claimed. -/
theorem c5_counterexample :
    Choice "" ["a", "a"] "" "" "" none
      = .ok (.choiceW ["a", "a"] 1 1, "a") ∧ (1 : Int) ≠ 0 := by
  exact ⟨rfl, by decide⟩

/-- C5 amended: if the bound string is empty and choices is non-empty, the
bound string becomes choices[0], no error is returned, and the selected
index is the last index holding choices[0] (0 whenever choices[0] occurs
only once); if the bound string is non-empty and not a member, Choice
returns the InvalidDefault error and no widget; if it is a member it is kept,
with the last index holding it selected. -/
theorem c5_choice_default (choices : List String) (valid : Option Validator)
    (title id cls : String) :
    (∀ c0 rest, choices = c0 :: rest →
      Choice "" choices title id cls valid
        = .ok (.choiceW choices (lastMatchIndex choices c0)
            (lastMatchIndex choices c0), c0))
  ∧ (∀ s, s ≠ "" → s ∉ choices →
      Choice s choices title id cls valid = .err (.invalidDefault s))
  ∧ (∀ s, s ≠ "" → s ∈ choices →
      Choice s choices title id cls valid
        = .ok (.choiceW choices (lastMatchIndex choices s)
            (lastMatchIndex choices s), s)) := by
  refine ⟨?_, ?_, ?_⟩
  · intro c0 rest hch
    subst hch
    have hnn := lastMatchIndex_nonneg_of_mem (List.mem_cons_self c0 rest)
    have hne : lastMatchIndex (c0 :: rest) c0 ≠ -1 := by omega
    simp [Choice, hne]
  · intro s hs hsm
    have h1 : lastMatchIndex choices s = -1 := lastMatchIndex_not_mem hsm
    simp [Choice, hs, h1]
  · intro s hs hsm
    have hnn := lastMatchIndex_nonneg_of_mem hsm
    have hne : lastMatchIndex choices s ≠ -1 := by omega
    simp [Choice, hs, hne]

/-- Witness for the amended C5, the spec's example: choices {"def","abc"}
with empty value stores "def" at selected index 0; value "zzz" fails with
InvalidDefault; a member value "def" is kept. -/
theorem c5_choice_default_witness :
    Choice "" ["def", "abc"] "" "" "" none
      = .ok (.choiceW ["def", "abc"] (lastMatchIndex ["def", "abc"] "def")
          (lastMatchIndex ["def", "abc"] "def"), "def")
  ∧ lastMatchIndex ["def", "abc"] "def" = 0
  ∧ ("zzz" : String) ≠ ""
  ∧ ("zzz" : String) ∉ ["def", "abc"]
  ∧ Choice "zzz" ["def", "abc"] "" "" "" none = .err (.invalidDefault "zzz")
  ∧ Choice "def" ["def", "abc"] "" "" "" none
      = .ok (.choiceW ["def", "abc"] (lastMatchIndex ["def", "abc"] "def")
          (lastMatchIndex ["def", "abc"] "def"), "def") := by
  refine ⟨(c5_choice_default ["def", "abc"] none "" "" "").1 "def" ["abc"] rfl,
    rfl, by decide, by decide,
    (c5_choice_default ["def", "abc"] none "" "" "").2.1 "zzz" (by decide) (by decide),
    (c5_choice_default ["def", "abc"] none "" "" "").2.2 "def" (by decide) (by decide)⟩

/-!  C10 -/

/-- C10: Choice with empty bound string and empty choices panics at
choices[0] (line 323) instead of returning an error; only a non-empty bound
string with empty choices reaches the InvalidDefault error return. -/
theorem c10_choice_empty_panics (title id cls : String) (valid : Option Validator) :
    Choice "" [] title id cls valid = .panic
  ∧ (∀ s, s ≠ "" → Choice s [] title id cls valid = .err (.invalidDefault s)) := by
  refine ⟨rfl, ?_⟩
  intro s hs
  simp [Choice, hs, lastMatchIndex, lastMatchAux]

/-- Witness for C10's error half at a concrete non-empty string. -/
theorem c10_choice_empty_panics_witness :
    ("x" : String) ≠ "" ∧ Choice "x" [] "" "" "" none = .err (.invalidDefault "x") :=
  ⟨by decide, (c10_choice_empty_panics "" "" "" none).2 "x" (by decide)⟩

/-!  C3 -/

/-- C3: the remove control at an in-range row i splices element i out of the
underlying slice: the result is one element shorter, elements before i keep
their values and positions, and elements after i shift down by one. -/
theorem c3_slice_remove (l : List GoVal) (i : Nat) (h : i < l.length) :
    (sliceRemove l i).length = l.length - 1
  ∧ (∀ k, k < i → (sliceRemove l i)[k]? = l[k]?)
  ∧ (∀ k, i ≤ k → k + 1 < l.length → (sliceRemove l i)[k]? = l[k + 1]?) := by
  refine ⟨?_, ?_, ?_⟩
  · simp [sliceRemove]
    omega
  · intro k hk
    rw [sliceRemove, List.getElem?_append_left (by simp; omega),
      List.getElem?_take_of_lt hk]
  · intro k h1 h2
    rw [sliceRemove, List.getElem?_append_right (by simp; omega),
      List.getElem?_drop]
    congr 1
    simp
    omega

/-- Witness for C3, the spec's example: removing index 1 from a 3-element
slice [2, 4, 6] keeps element 0 in place, moves element 2 to position 1, and
leaves 2 elements. -/
theorem c3_slice_remove_witness :
    (1 : Nat) < 3
  ∧ (sliceRemove [.intV 2, .intV 4, .intV 6] 1).length = 3 - 1
  ∧ (sliceRemove [.intV 2, .intV 4, .intV 6] 1)[0]? = [GoVal.intV 2, .intV 4, .intV 6][0]?
  ∧ (sliceRemove [.intV 2, .intV 4, .intV 6] 1)[1]? = [GoVal.intV 2, .intV 4, .intV 6][2]? := by
  have h := c3_slice_remove [.intV 2, .intV 4, .intV 6] 1 (by simp)
  exact ⟨by omega, h.1, h.2.1 0 (by omega), h.2.2 1 (by omega) (by simp)⟩

/-!  C4 -/

/-- C4: the add control appends exactly one element to the underlying slice:
a fresh non-nil pointer to a zero value for pointer element types, the zero
value of the element type otherwise; pre-existing elements keep their values
and positions. -/
theorem c4_slice_add (t : GoType) (l : List GoVal) :
    (sliceAdd t l).length = l.length + 1
  ∧ (∀ k, k < l.length → (sliceAdd t l)[k]? = l[k]?)
  ∧ (∀ t', t = .ptrT t' → (sliceAdd t l).getLast? = some (.ptrV (some t'.zero)))
  ∧ (t.isPtr = false → (sliceAdd t l).getLast? = some t.zero) := by
  have hshape : sliceAdd t l
      = l ++ [match t with | .ptrT t' => .ptrV (some t'.zero) | t => t.zero] := by
    cases t <;> rfl
  refine ⟨?_, ?_, ?_, ?_⟩
  · rw [hshape]; simp
  · intro k hk
    rw [hshape, List.getElem?_append_left hk]
  · intro t' ht
    subst ht
    exact List.getLast?_concat l
  · intro hnp
    rw [hshape]
    cases t <;> simp_all [GoType.isPtr]

/-- Witness for C4, the spec's example: adding to [2, 4] (int elements)
yields 3 elements, keeps 2 and 4 in place, and appends the zero value 0. -/
theorem c4_slice_add_witness :
    (sliceAdd .intT [.intV 2, .intV 4]).length = 2 + 1
  ∧ (sliceAdd .intT [.intV 2, .intV 4])[0]? = [GoVal.intV 2, .intV 4][0]?
  ∧ (sliceAdd .intT [.intV 2, .intV 4])[1]? = [GoVal.intV 2, .intV 4][1]?
  ∧ GoType.isPtr .intT = false
  ∧ (sliceAdd .intT [.intV 2, .intV 4]).getLast? = some (GoType.zero .intT) := by
  have h := c4_slice_add .intT [.intV 2, .intV 4]
  exact ⟨h.1, h.2.1 0 (by simp), h.2.1 1 (by simp), rfl, h.2.2.2 rfl⟩

/-!  C6 -/

/-- If some field of the list is exported and carries a non-empty validator
name missing from the registry, the field loop never returns ok: every path
ends in the unregistered-validator error, another field's error, or a
panic. -/
lemma structFields_bad_not_ok {reg : Registry} {tags : FieldTags} {t : GoType}
    (hexp : tags.exported = true) (hname : tags.valid ≠ "")
    (hreg : reg tags.valid = none) :
    ∀ (fields : List (FieldTags × GoType)), (tags, t) ∈ fields →
      ∀ vs? p, structFields reg fields vs? ≠ .ok p := by
  intro fields
  induction fields with
  | nil => intro h; cases h
  | cons f rest ih =>
    rcases f with ⟨ftags, ftyp⟩
    intro hmem vs? p hok
    rcases List.mem_cons.mp hmem with heq | hmem'
    · injection heq with h1 h2
      subst h1
      subst h2
      rcases vs? with - | (- | ⟨v, restV⟩)
      · simp only [structFields] at hok
        rw [if_neg (by simp [hexp])] at hok
        exact Res.noConfusion hok
      · simp only [structFields] at hok
        rw [if_neg (by simp [hexp])] at hok
        exact Res.noConfusion hok
      · simp only [structFields] at hok
        rw [if_neg (by simp [hexp]),
          if_pos (by simp [bne_iff_ne, hname, hreg])] at hok
        exact Res.noConfusion hok
    · rcases vs? with - | (- | ⟨v, restV⟩)
      · simp only [structFields] at hok
        by_cases hfe : ftags.exported = false
        · rw [if_pos hfe] at hok
          exact ih hmem' none p hok
        · rw [if_neg hfe] at hok
          exact Res.noConfusion hok
      · simp only [structFields] at hok
        by_cases hfe : ftags.exported = false
        · rw [if_pos hfe] at hok
          exact ih hmem' (some []) p hok
        · rw [if_neg hfe] at hok
          exact Res.noConfusion hok
      · simp only [structFields] at hok
        by_cases hfe : ftags.exported = false
        · rw [if_pos hfe] at hok
          cases h2 : structFields reg rest (some restV) with
          | ok q => exact ih hmem' (some restV) q h2
          | err e => rw [h2] at hok; exact Res.noConfusion hok
          | panic => rw [h2] at hok; exact Res.noConfusion hok
        · rw [if_neg hfe] at hok
          by_cases hcond : (ftags.valid != "" && (reg ftags.valid).isNone) = true
          · rw [if_pos hcond] at hok
            exact Res.noConfusion hok
          · rw [if_neg hcond] at hok
            rcases h3 : ftags.min.toBound with - | mn
            · simp [h3] at hok
            · rcases h4 : ftags.max.toBound with - | mx
              · simp [h3, h4] at hok
              · rcases h5 : ftags.step.toBound with - | st2
                · simp [h3, h4, h5] at hok
                · cases h6 : convert reg ftyp v ftags.title ftags.id ftags.cls
                      ftags.choice mn mx st2 (reg ftags.valid) with
                  | ok wv =>
                    cases h7 : structFields reg rest (some restV) with
                    | ok q => exact ih hmem' (some restV) q h7
                    | err e =>
                      rcases wv with ⟨w, v'⟩
                      simp [h3, h4, h5, h6, h7, Res.map] at hok
                    | panic =>
                      rcases wv with ⟨w, v'⟩
                      simp [h3, h4, h5, h6, h7, Res.map] at hok
                  | err e => simp [h3, h4, h5, h6] at hok
                  | panic => simp [h3, h4, h5, h6] at hok

/-- C6 counterexample: a struct whose first field is a []*int holding a nil
pointer and whose second field carries the unregistered validator name
"nope".  The claim's antecedent holds (a bindable field with a non-empty
unregistered validator name), yet Struct panics while converting the first
field (nil dereference at *i, line 227, reached through Slice) and so
returns neither an error nor a widget. -/
theorem c6_counterexample :
    badValidTags.exported = true
  ∧ badValidTags.valid ≠ ""
  ∧ regNone badValidTags.valid = none
  ∧ (badValidTags, GoType.intT)
      ∈ [(plainTags "A", GoType.sliceT (.ptrT .intT)), (badValidTags, .intT)]
  ∧ Struct regNone
      (.ptrT (.structT [(plainTags "A", .sliceT (.ptrT .intT)), (badValidTags, .intT)]))
      (.ptrV (some (.structV [.sliceV [.ptrV none], .intV 0]))) "" "" ""
      = .panic := by
  refine ⟨rfl, by decide, rfl, List.mem_cons_of_mem _ (List.mem_cons_self _ _), ?_⟩
  simp [Struct, structFields, convert, convertKind, sliceElems, plainTags,
    badValidTags, NumTag.toBound, Res.map]

/-- C6 amended: if any bindable (exported) field carries a non-empty
validator name absent from the registry, the record bind never returns a
widget; provided binding does not panic while converting a field (as it does
on a nil pointer), it returns a non-nil error.  An empty validator-name tag
does not trigger this error: a record of one exported untagged field binds
successfully. -/
theorem c6_unregistered_validator :
    (∀ (reg : Registry) (fields : List (FieldTags × GoType)) (vs : List GoVal)
        (tags : FieldTags) (t : GoType) (title id cls : String),
      (tags, t) ∈ fields → tags.exported = true → tags.valid ≠ "" →
      reg tags.valid = none →
        (∀ r, Struct reg (.ptrT (.structT fields)) (.ptrV (some (.structV vs)))
            title id cls ≠ .ok r)
      ∧ (Struct reg (.ptrT (.structT fields)) (.ptrV (some (.structV vs)))
            title id cls ≠ .panic →
          ∃ e, Struct reg (.ptrT (.structT fields)) (.ptrV (some (.structV vs)))
            title id cls = .err e))
  ∧ (∀ (reg : Registry) (x : Bool) (title id cls : String),
      Struct reg (.ptrT (.structT [(plainTags "A", .boolT)]))
          (.ptrV (some (.structV [.boolV x]))) title id cls
        = .ok (.structW [.boolW x x], .ptrV (some (.structV [.boolV x])))) := by
  constructor
  · intro reg fields vs tags t title id cls hmem hexp hname hreg
    have hno := structFields_bad_not_ok hexp hname hreg fields hmem (some vs)
    have hS : Struct reg (.ptrT (.structT fields)) (.ptrV (some (.structV vs)))
        title id cls
        = (structFields reg fields (some vs)).map
            (fun p => (.structW p.1, .ptrV (some (.structV p.2)))) := rfl
    constructor
    · intro r hok
      rw [hS] at hok
      cases h : structFields reg fields (some vs) with
      | ok p => exact hno p h
      | err e => rw [h] at hok; exact Res.noConfusion hok
      | panic => rw [h] at hok; exact Res.noConfusion hok
    · intro hnp
      rw [hS] at hnp ⊢
      cases h : structFields reg fields (some vs) with
      | ok p => exact absurd h (hno p)
      | err e => exact ⟨e, rfl⟩
      | panic => rw [h] at hnp; exact absurd rfl hnp
  · intro reg x title id cls
    simp [Struct, structFields, convert, convertKind, BoolBind, Res.map,
      plainTags, NumTag.toBound]

/-- Witness for the amended C6: a one-field record tagged with the
unregistered name "nope" on the empty registry returns no widget and does
return an error. -/
theorem c6_unregistered_validator_witness :
    (badValidTags, GoType.intT) ∈ [(badValidTags, GoType.intT)]
  ∧ badValidTags.exported = true
  ∧ badValidTags.valid ≠ ""
  ∧ regNone badValidTags.valid = none
  ∧ (∀ r, Struct regNone (.ptrT (.structT [(badValidTags, .intT)]))
      (.ptrV (some (.structV [.intV 0]))) "" "" "" ≠ .ok r)
  ∧ (∃ e, Struct regNone (.ptrT (.structT [(badValidTags, .intT)]))
      (.ptrV (some (.structV [.intV 0]))) "" "" "" = .err e) := by
  have h := c6_unregistered_validator.1 regNone [(badValidTags, .intT)] [.intV 0]
    badValidTags .intT "" "" "" (List.mem_cons_self _ _) rfl (by decide) rfl
  have heval : Struct regNone (.ptrT (.structT [(badValidTags, .intT)]))
      (.ptrV (some (.structV [.intV 0]))) "" "" ""
      = .err (.unregisteredValidator "nope") := by
    simp [Struct, structFields, badValidTags, plainTags, regNone, Res.map]
  refine ⟨List.mem_cons_self _ _, rfl, by decide, rfl, h.1, h.2 ?_⟩
  rw [heval]
  exact fun hc => Res.noConfusion hc

/-!  C8 -/

/-- C8: the convert dispatcher unwraps exactly one level of pointer
indirection and dispatches on the resulting kind: a string value goes to
Choice when the choices metadata is non-empty (split on commas) and to
String otherwise; struct, slice, bool, int and float64 kinds each go to
exactly one corresponding binder (Struct's field loop, Slice's populate
loop, Bool, Int, Float64); every other kind — including a second level of
pointer — yields the unsupported-type error. -/
theorem c8_convert_dispatch (reg : Registry) (title id cls : String)
    (mn mx st : Option Rat) (valid : Option Validator) :
    (∀ t v?, convert reg (.ptrT t) (.ptrV v?) title id cls "" mn mx st valid
      = (convertKind reg t v? title id cls "" mn mx st valid).map
          (fun p => (p.1, GoVal.ptrV p.2)))
  ∧ (∀ b ch, convert reg .boolT (.boolV b) title id cls ch mn mx st valid
      = BoolBind b title id cls valid)
  ∧ (∀ n ch, convert reg .intT (.intV n) title id cls ch mn mx st valid
      = IntBind n title id cls mn mx st valid)
  ∧ (∀ q ch, convert reg .float64T (.floatV q) title id cls ch mn mx st valid
      = Float64 q title id cls mn mx st valid)
  ∧ (∀ s, convert reg .stringT (.stringV s) title id cls "" mn mx st valid
      = StringBind s title id cls valid)
  ∧ (∀ s ch, ch ≠ "" →
      convert reg .stringT (.stringV s) title id cls ch mn mx st valid
        = (Choice s (ch.splitOn ",") title id cls valid).map
            (fun p => (p.1, GoVal.stringV p.2)))
  ∧ (∀ fields vs ch,
      convert reg (.structT fields) (.structV vs) title id cls ch mn mx st valid
        = (structFields reg fields (some vs)).map
            (fun p => (.structW p.1, GoVal.structV p.2)))
  ∧ (∀ et es ch,
      convert reg (.sliceT et) (.sliceV es) title id cls ch mn mx st valid
        = (sliceElems reg et es 0 mn mx st valid).map
            (fun p => (.sliceW p.1, GoVal.sliceV p.2)))
  ∧ (∀ t v? ch, convert reg (.ptrT (.ptrT t)) (.ptrV v?) title id cls ch mn mx st valid
      = .err .unsupportedType)
  ∧ (∀ ch, convert reg .mapT .mapV title id cls ch mn mx st valid
      = .err .unsupportedType)
  ∧ (∀ ch, convert reg .funcT .funcV title id cls ch mn mx st valid
      = .err .unsupportedType) := by
  refine ⟨?_, ?_, ?_, ?_, ?_, ?_, ?_, ?_, ?_, ?_, ?_⟩
  · intro t v?
    rw [convert]
  · intro b ch
    simp [convert, convertKind, BoolBind, Res.map]
  · intro n ch
    simp [convert, convertKind, IntBind, Res.map]
  · intro q ch
    simp [convert, convertKind, Float64, Res.map]
  · intro s
    simp [convert, convertKind, StringBind, Res.map]
  · intro s ch hch
    have hbne : (ch != "") = true := bne_iff_ne.mpr hch
    cases h : Choice s (ch.splitOn ",") title id cls valid with
    | ok p =>
      rcases p with ⟨w, s'⟩
      simp [convert, convertKind, hbne, h, Res.map]
    | err e => simp [convert, convertKind, hbne, h, Res.map]
    | panic => simp [convert, convertKind, hbne, h, Res.map]
  · intro fields vs ch
    cases h : structFields reg fields (some vs) with
    | ok p => simp [convert, convertKind, h, Res.map]
    | err e => simp [convert, convertKind, h, Res.map]
    | panic => simp [convert, convertKind, h, Res.map]
  · intro et es ch
    cases h : sliceElems reg et es 0 mn mx st valid with
    | ok p => simp [convert, convertKind, h, Res.map]
    | err e => simp [convert, convertKind, h, Res.map]
    | panic => simp [convert, convertKind, h, Res.map]
  · intro t v? ch
    simp [convert, convertKind, Res.map]
  · intro ch
    simp [convert, convertKind, Res.map]
  · intro ch
    simp [convert, convertKind, Res.map]

/-- Witness for C8: the string-to-Choice conjunct at a concrete non-empty
choices tag "a,b". -/
theorem c8_convert_dispatch_witness :
    ("a,b" : String) ≠ ""
  ∧ convert regNone .stringT (.stringV "a") "" "" "" "a,b" none none none none
      = (Choice "a" (("a,b" : String).splitOn ",") "" "" "" none).map
          (fun p => (p.1, GoVal.stringV p.2)) :=
  ⟨by decide,
    (c8_convert_dispatch regNone "" "" "" none none none none).2.2.2.2.2.1
      "a" "a,b" (by decide)⟩

/-- Witness for C9: the implication parts exercised at concrete inputs. -/
theorem c9_prev_tracks_bound_witness :
    intChange none none none 1 (.intText 4) = some { bound := 4, prev := 4, disp := 4 }
  ∧ (ScalarState.prev { bound := 4, prev := 4, disp := (4 : Int) }
      = ScalarState.bound { bound := 4, prev := 4, disp := (4 : Int) })
  ∧ floatChange none none none 1 (.floatText 4) = some { bound := 4, prev := 4, disp := 4 }
  ∧ (ScalarState.prev { bound := 4, prev := 4, disp := (4 : Rat) }
      = ScalarState.bound { bound := 4, prev := 4, disp := (4 : Rat) }) := by
  refine ⟨rfl, ?_, rfl, ?_⟩
  · exact c9_prev_tracks_bound.2.2.2.2.2.1 none none none 1 (.intText 4) _ rfl
  · exact c9_prev_tracks_bound.2.2.2.2.2.2.1 none none none 1 (.floatText 4) _ rfl

end Htmlctrl
